import Mathlib

/-!
Shallow embedding of `tokio/src/runtime/thread_pool/park.rs`.

The Rust file implements the thread-parking primitive of the runtime's
thread pool.  Its core is `Inner`, holding an atomic `state : AtomicUsize`
ranging over five constants (`EMPTY`, `PARKED_CONDVAR`, `PARKED_DRIVER`,
`NOTIFIED`, `THREADLESS`), a mutex, a condition variable, and a `Shared`
record (a `TryLock<Driver>` slot plus a driver wake handle) shared across
clones.

We embed the atomic state as a `Nat` (the code uses `usize` constants and
has explicit panic arms for any other value, so an open domain is needed).
Each operation becomes a pure function of the state; a Rust `panic!` is
modelled as `none`.  Physical side effects (mutex lock/unlock, condvar
notify, driver wake/shutdown/poll) are recorded as an `Action` list,
since the claims constrain which physical actions each path performs.
Blocking is modelled by splitting an operation at its suspension point:
`park_driver`/`park_condvar` describe everything up to returning or
blocking, and `park_driver_resume`/`park_condvar_resume` describe what the
thread does with the state it observes when the blocking call returns.
-/

namespace ParkModel

/-- `const EMPTY: usize = 0;` — the Idle state. -/
def EMPTY : Nat := 0

/-- `const PARKED_CONDVAR: usize = 1;` — parked on the condition variable. -/
def PARKED_CONDVAR : Nat := 1

/-- `const PARKED_DRIVER: usize = 2;` — parked inside the driver. -/
def PARKED_DRIVER : Nat := 2

/-- `const NOTIFIED: usize = 3;` — a wakeup is pending. -/
def NOTIFIED : Nat := 3

/-- `const THREADLESS: usize = 4;` — the worker has no backing thread. -/
def THREADLESS : Nat := 4

/-- Rust `enum UnparkResult { Unparked, Threadless }`, returned by `unpark`. -/
inductive UnparkResult where
  | Unparked
  | Threadless
deriving DecidableEq, Repr

/-- `UnparkResult::is_threadless`. -/
def UnparkResult.is_threadless : UnparkResult → Bool
  | UnparkResult.Threadless => true
  | _ => false

/-- Physical side effects performed by the operations, in program order. -/
inductive Action where
  /-- `drop(self.mutex.lock())` in `unpark_condvar`: acquire then release the park mutex. -/
  | lockUnlockMutex
  /-- `self.condvar.notify_one()` in `unpark_condvar`. -/
  | notifyCondvarOne
  /-- `self.shared.handle.unpark()` in `unpark_driver`: invoke the driver wake handle. -/
  | driverWake
  /-- `driver.shutdown()` in `Inner::shutdown`. -/
  | driverShutdown
  /-- `self.condvar.notify_all()` in `Inner::shutdown`. -/
  | notifyCondvarAll
  /-- `driver.park_timeout(Duration::from_millis(0))` in `Parker::park_timeout`: a non-blocking poll of the driver. -/
  | driverPollZero
deriving DecidableEq, Repr

/-- `Inner::unpark`.  The code does `self.state.swap(NOTIFIED, SeqCst)` and
matches on the previous value: `EMPTY | NOTIFIED` return `Unparked` with no
physical action, `PARKED_CONDVAR` runs `unpark_condvar` (mutex lock/unlock
then `notify_one`), `PARKED_DRIVER` runs `unpark_driver` (the driver wake
handle), `THREADLESS` returns `Threadless`, and any other value panics.
Result: new state, return value, physical actions; `none` models the panic. -/
def unpark (s : Nat) : Option (Nat × UnparkResult × List Action) :=
  if s = EMPTY ∨ s = NOTIFIED then
    some (NOTIFIED, UnparkResult.Unparked, [])
  else if s = PARKED_CONDVAR then
    some (NOTIFIED, UnparkResult.Unparked, [Action.lockUnlockMutex, Action.notifyCondvarOne])
  else if s = PARKED_DRIVER then
    some (NOTIFIED, UnparkResult.Unparked, [Action.driverWake])
  else if s = THREADLESS then
    some (NOTIFIED, UnparkResult.Threadless, [])
  else
    none

/-- `Inner::transition_to_threadless`:
`self.state.compare_exchange(EMPTY, THREADLESS, SeqCst, SeqCst).is_ok()`.
Returns the success flag and the state after the operation (a failed
compare-exchange leaves the state unchanged). -/
def transition_to_threadless (s : Nat) : Bool × Nat :=
  if s = EMPTY then (true, THREADLESS) else (false, s)

/-- `Inner::transition_from_threadless`:
`self.state.compare_exchange(THREADLESS, EMPTY, SeqCst, SeqCst).is_ok()`. -/
def transition_from_threadless (s : Nat) : Bool × Nat :=
  if s = THREADLESS then (true, EMPTY) else (false, s)

/-- Outcome of the non-blocking prefix of a park path. -/
inductive ParkOutcome where
  /-- The call returned without blocking; `finalState` is the state it left
  behind and `idleSwaps` counts the state transitions writing `EMPTY`. -/
  | immediate (finalState : Nat) (idleSwaps : Nat)
  /-- The thread is blocked inside `driver.park()`; the state it published is
  `stateWhileBlocked`. -/
  | blockedDriver (stateWhileBlocked : Nat)
  /-- The thread is blocked in the condvar wait loop. -/
  | blockedCondvar (stateWhileBlocked : Nat)
deriving DecidableEq, Repr

/-- The spin loop at the top of `Inner::park`: `for _ in 0..3` attempt
`compare_exchange(NOTIFIED, EMPTY, SeqCst, SeqCst)`; on success return.
With no interference the state does not change between iterations, so the
loop returns (with state `EMPTY`) exactly when it starts in `NOTIFIED`. -/
def parkSpin (iters : Nat) (s : Nat) : Option Nat :=
  match iters with
  | 0 => none
  | n + 1 => if s = NOTIFIED then some EMPTY else parkSpin n s

/-- `Inner::park_condvar` up to its suspension point.  Under the mutex it
attempts `compare_exchange(EMPTY, PARKED_CONDVAR)`: on success it enters the
condvar wait loop; on failure with `NOTIFIED` it swaps the state to `EMPTY`
and returns; any other observed value panics. -/
def park_condvar (s : Nat) : Option ParkOutcome :=
  if s = EMPTY then some (ParkOutcome.blockedCondvar PARKED_CONDVAR)
  else if s = NOTIFIED then some (ParkOutcome.immediate EMPTY 1)
  else none

/-- One pass of the condvar wait loop after `condvar.wait` returns: attempt
`compare_exchange(NOTIFIED, EMPTY)`; on success park returns (`true`),
otherwise the wakeup was spurious and the loop re-blocks (`false`). -/
def park_condvar_resume (s : Nat) : Nat × Bool :=
  if s = NOTIFIED then (EMPTY, true) else (s, false)

/-- `Inner::park_driver` up to its suspension point.  It attempts
`compare_exchange(EMPTY, PARKED_DRIVER)`: on success it blocks in
`driver.park()`; on failure with `NOTIFIED` it swaps the state to `EMPTY`
and returns without blocking; any other observed value panics. -/
def park_driver (s : Nat) : Option ParkOutcome :=
  if s = EMPTY then some (ParkOutcome.blockedDriver PARKED_DRIVER)
  else if s = NOTIFIED then some (ParkOutcome.immediate EMPTY 1)
  else none

/-- The tail of `Inner::park_driver` after `driver.park()` returns:
`self.state.swap(EMPTY, SeqCst)` whose previous value must be `NOTIFIED` or
`PARKED_DRIVER`; anything else panics (`none`). -/
def park_driver_resume (sWake : Nat) : Option Nat :=
  if sWake = NOTIFIED ∨ sWake = PARKED_DRIVER then some EMPTY else none

/-- `Inner::park`: the spin loop, then dispatch on
`self.shared.driver.try_lock()` — the driver-backed path when the slot is
free, the condvar fallback otherwise.  `slotFree` is whether the `TryLock`
acquisition succeeds. -/
def park (s : Nat) (slotFree : Bool) : Option ParkOutcome :=
  match parkSpin 3 s with
  | some sNew => some (ParkOutcome.immediate sNew 1)
  | none => if slotFree then park_driver s else park_condvar s

/-- `Parker::park_timeout`: `assert_eq!(duration, Duration::from_millis(0))`
(panic on any non-zero duration, before touching the driver), then, only if
`self.inner.shared.driver.try_lock()` succeeds, a zero-duration
`driver.park_timeout`.  The notification state is never read or written; the
result is the (unchanged) state and the physical actions performed. -/
def park_timeout (s : Nat) (slotFree : Bool) (duration : Nat) : Option (Nat × List Action) :=
  if duration = 0 then
    if slotFree then some (s, [Action.driverPollZero]) else some (s, [])
  else
    none

/-- `Inner::shutdown`: if `self.shared.driver.try_lock()` succeeds, shut the
driver down; then `self.condvar.notify_all()`.  The notification state is
not touched. -/
def shutdown (s : Nat) (slotFree : Bool) : Nat × List Action :=
  (s, (if slotFree then [Action.driverShutdown] else []) ++ [Action.notifyCondvarAll])

/-! ### Helper lemmas -/

/-- Closed form of the spin loop: with no interference it consumes a pending
notification exactly when the state starts as `NOTIFIED` (and at least one
iteration remains). -/
theorem parkSpin_eq (iters s : Nat) :
    parkSpin iters s = if iters ≠ 0 ∧ s = NOTIFIED then some EMPTY else none := by
  induction iters with
  | zero => simp [parkSpin]
  | succ n ih =>
    by_cases hs : s = NOTIFIED <;> simp [parkSpin, hs, ih]

/-- Every successful `unpark` leaves the state `NOTIFIED` (it is an
unconditional swap). -/
theorem unpark_state (s s' : Nat) (r : UnparkResult) (a : List Action)
    (h : unpark s = some (s', r, a)) : s' = NOTIFIED := by
  unfold unpark at h
  split_ifs at h <;> simp_all

/-- `park` returning immediately leaves the state `EMPTY`. -/
theorem park_immediate_state (s : Nat) (f : Bool) (s' k : Nat)
    (h : park s f = some (ParkOutcome.immediate s' k)) : s' = EMPTY := by
  unfold park at h
  rw [parkSpin_eq] at h
  split at h
  · next heq =>
    split_ifs at heq <;> simp_all
  · cases f <;> simp only [Bool.false_eq_true, if_true, if_false] at h <;>
      simp only [park_condvar, park_driver] at h <;> split_ifs at h <;> simp_all

/-- `park` blocking in the driver happened from `EMPTY` and published
`PARKED_DRIVER`. -/
theorem park_blockedDriver_state (s : Nat) (f : Bool) (s' : Nat)
    (h : park s f = some (ParkOutcome.blockedDriver s')) :
    s = EMPTY ∧ s' = PARKED_DRIVER := by
  unfold park at h
  rw [parkSpin_eq] at h
  split at h
  · next heq => split_ifs at heq <;> simp_all
  · cases f <;> simp only [Bool.false_eq_true, if_true, if_false] at h <;>
      simp only [park_condvar, park_driver] at h <;> split_ifs at h <;> simp_all

/-- `park` blocking on the condvar happened from `EMPTY` and published
`PARKED_CONDVAR`. -/
theorem park_blockedCondvar_state (s : Nat) (f : Bool) (s' : Nat)
    (h : park s f = some (ParkOutcome.blockedCondvar s')) :
    s = EMPTY ∧ s' = PARKED_CONDVAR := by
  unfold park at h
  rw [parkSpin_eq] at h
  split at h
  · next heq => split_ifs at heq <;> simp_all
  · cases f <;> simp only [Bool.false_eq_true, if_true, if_false] at h <;>
      simp only [park_condvar, park_driver] at h <;> split_ifs at h <;> simp_all

/-- `park` on a `THREADLESS` state panics on both blocking paths. -/
theorem park_threadless (f : Bool) : park THREADLESS f = none := by
  cases f <;> rfl

/-! ### Claim theorems -/

/-- C1: `unpark` swaps the state to `NOTIFIED` unconditionally and acts on
the previous value: from `Idle` or `Notified` it returns `Unparked` with no
physical action; from `ParkedOnWait` it locks/unlocks the park mutex and
signals the condition variable, returning `Unparked`; from `ParkedOnDriver`
it invokes the driver's wake handle, returning `Unparked`; from
`Threadless` it returns the `Threadless` outcome; any other previous value
panics. -/
theorem unpark_full_case_analysis :
    unpark EMPTY = some (NOTIFIED, UnparkResult.Unparked, []) ∧
    unpark NOTIFIED = some (NOTIFIED, UnparkResult.Unparked, []) ∧
    unpark PARKED_CONDVAR =
      some (NOTIFIED, UnparkResult.Unparked,
        [Action.lockUnlockMutex, Action.notifyCondvarOne]) ∧
    unpark PARKED_DRIVER = some (NOTIFIED, UnparkResult.Unparked, [Action.driverWake]) ∧
    unpark THREADLESS = some (NOTIFIED, UnparkResult.Threadless, []) ∧
    ∀ s : Nat, THREADLESS < s → unpark s = none := by
  refine ⟨rfl, rfl, rfl, rfl, rfl, ?_⟩
  intro s hs
  unfold unpark
  have h0 : s ≠ EMPTY := by unfold EMPTY THREADLESS at *; omega
  have h1 : s ≠ PARKED_CONDVAR := by unfold PARKED_CONDVAR THREADLESS at *; omega
  have h2 : s ≠ PARKED_DRIVER := by unfold PARKED_DRIVER THREADLESS at *; omega
  have h3 : s ≠ NOTIFIED := by unfold NOTIFIED THREADLESS at *; omega
  have h4 : s ≠ THREADLESS := by omega
  simp [h0, h1, h2, h3, h4]

/-- Witness for C1: the panic arm at the concrete out-of-range value 5. -/
theorem unpark_full_case_analysis_witness : unpark 5 = none :=
  unpark_full_case_analysis.2.2.2.2.2 5 (by decide)

/-- C2: `transition_to_threadless` succeeds (returning `true` and setting the
state to `THREADLESS`) exactly when the state is `EMPTY`, and
`transition_from_threadless` succeeds (returning `true` and setting the
state to `EMPTY`) exactly when the state is `THREADLESS`; every failure
returns `false` and leaves the state unchanged. -/
theorem threadless_transitions_iff (s : Nat) :
    (transition_to_threadless s = (true, THREADLESS) ↔ s = EMPTY) ∧
    (s ≠ EMPTY → transition_to_threadless s = (false, s)) ∧
    (transition_from_threadless s = (true, EMPTY) ↔ s = THREADLESS) ∧
    (s ≠ THREADLESS → transition_from_threadless s = (false, s)) := by
  unfold transition_to_threadless transition_from_threadless
  by_cases h : s = EMPTY <;> by_cases h' : s = THREADLESS <;> simp_all

/-- Witness for C2: at `NOTIFIED` the mark-threadless attempt fails and
leaves the state unchanged. -/
theorem threadless_transitions_iff_witness :
    transition_to_threadless NOTIFIED = (false, NOTIFIED) :=
  (threadless_transitions_iff NOTIFIED).2.1 (by decide)

/-- C4: after any successful `unpark` the state is `NOTIFIED`; a second
`unpark` issued with no intervening `park` is coalesced (the state stays
`NOTIFIED`, the call returns `Unparked` with no physical action); and a
single subsequent `park` — on either path — returns immediately without
blocking, performing exactly one transition back to `EMPTY`. -/
theorem double_unpark_coalesces (s s₁ : Nat) (r₁ : UnparkResult) (a₁ : List Action)
    (h : unpark s = some (s₁, r₁, a₁)) :
    s₁ = NOTIFIED ∧
    unpark s₁ = some (NOTIFIED, UnparkResult.Unparked, []) ∧
    ∀ f : Bool, park s₁ f = some (ParkOutcome.immediate EMPTY 1) := by
  have hs₁ := unpark_state s s₁ r₁ a₁ h
  subst hs₁
  refine ⟨rfl, rfl, ?_⟩
  intro f
  cases f <;> rfl

/-- Witness for C4: starting from the `EMPTY` state. -/
theorem double_unpark_coalesces_witness :
    unpark NOTIFIED = some (NOTIFIED, UnparkResult.Unparked, []) ∧
    park NOTIFIED true = some (ParkOutcome.immediate EMPTY 1) :=
  ⟨(double_unpark_coalesces EMPTY NOTIFIED UnparkResult.Unparked [] rfl).2.1,
   (double_unpark_coalesces EMPTY NOTIFIED UnparkResult.Unparked [] rfl).2.2 true⟩

/-- C5: the driver-backed park path first attempts the compare-and-swap
`EMPTY → PARKED_DRIVER`; from `EMPTY` it blocks having published
`PARKED_DRIVER`, from `NOTIFIED` it consumes the notification (state becomes
`EMPTY`) and returns without blocking, and from any other state it panics;
after the driver's blocking wait returns, the state is swapped to `EMPTY`
and the previous value must be `NOTIFIED` or `PARKED_DRIVER` — anything
else panics. -/
theorem park_driver_path_spec :
    park_driver EMPTY = some (ParkOutcome.blockedDriver PARKED_DRIVER) ∧
    park_driver NOTIFIED = some (ParkOutcome.immediate EMPTY 1) ∧
    (∀ s : Nat, s ≠ EMPTY → s ≠ NOTIFIED → park_driver s = none) ∧
    park_driver_resume NOTIFIED = some EMPTY ∧
    park_driver_resume PARKED_DRIVER = some EMPTY ∧
    (∀ s : Nat, s ≠ NOTIFIED → s ≠ PARKED_DRIVER → park_driver_resume s = none) := by
  refine ⟨rfl, rfl, ?_, rfl, rfl, ?_⟩
  · intro s h0 h3
    unfold park_driver
    simp [h0, h3]
  · intro s h3 h2
    unfold park_driver_resume
    simp [h3, h2]

/-- Witness for C5: the panic arms at the concrete state `PARKED_CONDVAR`. -/
theorem park_driver_path_spec_witness :
    park_driver PARKED_CONDVAR = none ∧ park_driver_resume PARKED_CONDVAR = none :=
  ⟨park_driver_path_spec.2.2.1 PARKED_CONDVAR (by decide) (by decide),
   park_driver_path_spec.2.2.2.2.2 PARKED_CONDVAR (by decide) (by decide)⟩

/-- C6: `park_timeout` with a non-zero duration panics (before any driver
action is performed — the `none` result carries no action); with a zero
duration it performs at most a non-blocking poll of the driver, and the
poll happens only when the driver slot is acquired. -/
theorem park_timeout_zero_only (d s : Nat) (f : Bool) :
    (d ≠ 0 → park_timeout s f d = none) ∧
    park_timeout s f 0 = some (s, if f then [Action.driverPollZero] else []) := by
  constructor
  · intro hd
    unfold park_timeout
    simp [hd]
  · cases f <;> rfl

/-- Witness for C6: duration 5 panics; duration 0 with the slot free polls. -/
theorem park_timeout_zero_only_witness : park_timeout 0 true 5 = none :=
  (park_timeout_zero_only 5 0 true).1 (by decide)

/-- C7: `shutdown` leaves the notification state unchanged for every
starting state; its only effects are a driver shutdown when the driver
slot is acquired, followed by a notify-all on the condition variable. -/
theorem shutdown_preserves_state (s : Nat) (f : Bool) :
    (shutdown s f).1 = s ∧
    (shutdown s f).2 =
      (if f then [Action.driverShutdown, Action.notifyCondvarAll]
       else [Action.notifyCondvarAll]) := by
  cases f <;> exact ⟨rfl, rfl⟩

/-- C10: `park_timeout` never reads or writes the notification state — every
non-panicking call returns the state unchanged, the actions performed do
not depend on the state, and when the driver slot is held by another
thread a zero-duration call performs no action at all. -/
theorem park_timeout_state_frame (s : Nat) (f : Bool) (d : Nat) (r : Nat × List Action) :
    (park_timeout s f d = some r → r.1 = s) ∧
    (park_timeout s false d = some r → r.2 = []) ∧
    (∀ s₂ : Nat, Option.map Prod.snd (park_timeout s f d) =
      Option.map Prod.snd (park_timeout s₂ f d)) := by
  refine ⟨?_, ?_, ?_⟩
  · intro h
    unfold park_timeout at h
    split_ifs at h <;> first | (cases h; rfl) | simp_all
  · intro h
    unfold park_timeout at h
    split_ifs at h <;> first | (cases h; rfl) | simp_all
  · intro s₂
    unfold park_timeout
    split_ifs <;> rfl

/-- Witness for C10: a zero-duration call with the slot held returns the
state untouched having performed no action. -/
theorem park_timeout_state_frame_witness :
    (NOTIFIED, ([] : List Action)).1 = NOTIFIED ∧
    (NOTIFIED, ([] : List Action)).2 = ([] : List Action) :=
  ⟨(park_timeout_state_frame NOTIFIED false 0 (NOTIFIED, [])).1 rfl,
   (park_timeout_state_frame NOTIFIED false 0 (NOTIFIED, [])).2.1 rfl⟩

/-! ### The transition relation on the raw state (for the Threadless invariant) -/

/-- One operation step on the raw notification state: every way any
operation of the file can move the state from `s` to `s'` (panicking runs
take no step). -/
inductive OpStep : Nat → Nat → Prop where
  | unparkStep (s s' : Nat) (r : UnparkResult) (a : List Action) :
      unpark s = some (s', r, a) → OpStep s s'
  | toThreadless (s : Nat) :
      (transition_to_threadless s).1 = true → OpStep s (transition_to_threadless s).2
  | fromThreadless (s : Nat) :
      (transition_from_threadless s).1 = true → OpStep s (transition_from_threadless s).2
  | parkImmediate (s : Nat) (f : Bool) (s' k : Nat) :
      park s f = some (ParkOutcome.immediate s' k) → OpStep s s'
  | parkBlockDriver (s : Nat) (f : Bool) (s' : Nat) :
      park s f = some (ParkOutcome.blockedDriver s') → OpStep s s'
  | parkBlockCondvar (s : Nat) (f : Bool) (s' : Nat) :
      park s f = some (ParkOutcome.blockedCondvar s') → OpStep s s'
  | driverResume (s s' : Nat) :
      park_driver_resume s = some s' → OpStep s s'
  | condvarResume (s : Nat) : OpStep s (park_condvar_resume s).1

/-- C3 counterexample: the claim "Threadless is only ever left by a
transition back to Idle, never adjacent to a transition to or from
Notified" is false: `unpark` on a `THREADLESS` state swaps it to
`NOTIFIED`. -/
theorem threadless_exit_counterexample :
    ¬ ∀ s s' : Nat, OpStep s s' → s = THREADLESS → s' = EMPTY := by
  intro h
  have step : OpStep THREADLESS NOTIFIED :=
    OpStep.unparkStep THREADLESS NOTIFIED UnparkResult.Threadless [] rfl
  have := h THREADLESS NOTIFIED step rfl
  simp [NOTIFIED, EMPTY] at this

/-- C3 amended: `THREADLESS` is only ever entered by a transition from
`EMPTY` (the Idle state); it is left either by `transition_from_threadless`
back to `EMPTY` or by `unpark`, which swaps the state to `NOTIFIED` while
reporting the `Threadless` outcome. -/
theorem threadless_entry_exit (s s' : Nat) (hstep : OpStep s s') (hne : s ≠ s') :
    (s' = THREADLESS → s = EMPTY) ∧
    (s = THREADLESS → s' = EMPTY ∨ s' = NOTIFIED) := by
  cases hstep with
  | unparkStep s₂ r a h =>
    have hN := unpark_state s s' r a h
    subst hN
    exact ⟨by intro h'; simp [NOTIFIED, THREADLESS] at h', fun _ => Or.inr rfl⟩
  | toThreadless h =>
    unfold transition_to_threadless at *
    split_ifs at * <;> simp_all
  | fromThreadless h =>
    unfold transition_from_threadless at *
    split_ifs at * <;> simp_all
  | parkImmediate f s₂ k h =>
    have hE := park_immediate_state s f s' k h
    subst hE
    refine ⟨by intro h'; simp [EMPTY, THREADLESS] at h', ?_⟩
    intro hT
    subst hT
    rw [park_threadless] at h
    cases h
  | parkBlockDriver f s₂ h =>
    obtain ⟨hs, hs'⟩ := park_blockedDriver_state s f s' h
    subst hs; subst hs'
    exact ⟨by intro h'; simp [PARKED_DRIVER, THREADLESS] at h',
      by intro h'; simp [EMPTY, THREADLESS] at h'⟩
  | parkBlockCondvar f s₂ h =>
    obtain ⟨hs, hs'⟩ := park_blockedCondvar_state s f s' h
    subst hs; subst hs'
    exact ⟨by intro h'; simp [PARKED_CONDVAR, THREADLESS] at h',
      by intro h'; simp [EMPTY, THREADLESS] at h'⟩
  | driverResume s₂ h =>
    unfold park_driver_resume at h
    split_ifs at h with hc
    · injection h with h
      subst h
      exact ⟨by intro h'; simp [EMPTY, THREADLESS] at h', fun _ => Or.inl rfl⟩
  | condvarResume =>
    unfold park_condvar_resume at *
    split_ifs at * <;> simp_all [EMPTY, THREADLESS, NOTIFIED]

/-- Witness for C3 amended: the step `EMPTY → THREADLESS` taken by a
successful `transition_to_threadless`. -/
theorem threadless_entry_exit_witness : EMPTY = EMPTY :=
  (threadless_entry_exit EMPTY THREADLESS
    (by
      have h : OpStep EMPTY (transition_to_threadless EMPTY).2 :=
        OpStep.toThreadless EMPTY rfl
      exact h)
    (by decide)).1 rfl

/-! ### Parker construction and cloning -/

/-- The per-handle data of `Parker`/`Inner` relevant to construction:
the notification state and the identities of the owned mutex, condvar and
shared `Shared` record.  Identities are modelled as allocation ids. -/
structure ParkerM where
  state : Nat
  mutexId : Nat
  condvarId : Nat
  sharedId : Nat
deriving DecidableEq, Repr

/-- `Parker::new`: builds an `Inner` with `state: AtomicUsize::new(THREADLESS)`,
a fresh `Mutex`, a fresh `Condvar`, and a freshly allocated `Shared`
(driver `TryLock` slot plus wake handle).  Allocation draws ids from a
supply counter; ids at or above `supply` are unused so far. -/
def ParkerM.new (supply : Nat) : ParkerM × Nat :=
  (⟨THREADLESS, supply, supply + 1, supply + 2⟩, supply + 3)

/-- `impl Clone for Parker`: builds a new `Inner` with
`state: AtomicUsize::new(THREADLESS)`, a fresh `Mutex` and `Condvar`, but
`shared: self.inner.shared.clone()` — the same `Shared` record. -/
def ParkerM.clone (p : ParkerM) (supply : Nat) : ParkerM × Nat :=
  (⟨THREADLESS, supply, supply + 1, p.sharedId⟩, supply + 2)

/-- C9: both `Parker::new` and `Clone` produce a parker whose state starts
as `THREADLESS` (not `EMPTY`); a clone gets a fresh mutex and condvar but
shares the original's `Shared` (driver slot and wake handle).  Hence the
first `unpark` on a fresh parker reports the `Threadless` outcome, and a
`park` issued before a successful `transition_from_threadless` panics on
both blocking paths. -/
theorem fresh_parker_threadless (supply : Nat) (p : ParkerM) :
    (ParkerM.new supply).1.state = THREADLESS ∧
    (ParkerM.clone p supply).1.state = THREADLESS ∧
    (ParkerM.clone p supply).1.sharedId = p.sharedId ∧
    (p.mutexId < supply → (ParkerM.clone p supply).1.mutexId ≠ p.mutexId) ∧
    (p.condvarId < supply → (ParkerM.clone p supply).1.condvarId ≠ p.condvarId) ∧
    unpark THREADLESS = some (NOTIFIED, UnparkResult.Threadless, []) ∧
    ∀ f : Bool, park THREADLESS f = none := by
  refine ⟨rfl, rfl, rfl, ?_, ?_, rfl, park_threadless⟩
  · intro h
    simp only [ParkerM.clone]
    omega
  · intro h
    simp only [ParkerM.clone]
    omega

/-- Witness for C9: a concrete original (built with supply 0) and a clone
drawn from supply 10 have distinct mutex and condvar identities. -/
theorem fresh_parker_threadless_witness :
    ((ParkerM.new 0).1.clone 10).1.mutexId ≠ (ParkerM.new 0).1.mutexId ∧
    ((ParkerM.new 0).1.clone 10).1.condvarId ≠ (ParkerM.new 0).1.condvarId :=
  ⟨(fresh_parker_threadless 10 (ParkerM.new 0).1).2.2.2.1 (by decide),
   (fresh_parker_threadless 10 (ParkerM.new 0).1).2.2.2.2.1 (by decide)⟩

/-! ### Concurrent driver-slot mutual exclusion -/

/-- Where a worker thread currently is, for the parking dispatch of
`Inner::park`. -/
inductive Phase where
  /-- Not inside a blocking park path. -/
  | running
  /-- Blocked inside `driver.park()`, holding the driver slot. -/
  | driverWait
  /-- Blocked in the condvar fallback. -/
  | condvarWait
deriving DecidableEq, Repr

/-- A pool of `n` worker threads sharing one `Shared` record: the current
owner of the driver `TryLock` slot (if any) and each thread's phase. -/
structure Sys (n : Nat) where
  slotHolder : Option (Fin n)
  phase : Fin n → Phase

/-- `TryLock::try_lock` on the driver slot: succeeds (returning the guard,
here the new holder) exactly when nobody holds the slot; never blocks. -/
def tryLockSlot {n : Nat} (holder : Option (Fin n)) (i : Fin n) :
    Option (Option (Fin n)) :=
  match holder with
  | none => some (some i)
  | some _ => none

/-- All threads running, slot free. -/
def Sys.start (n : Nat) : Sys n := ⟨none, fun _ => Phase.running⟩

/-- Interleaved steps of the pool: a thread reaching the dispatch point of
`Inner::park` either wins `try_lock` and blocks in the driver, or fails the
non-blocking acquisition and immediately takes the condvar fallback; a
woken driver-parked thread releases the slot (the `TryLock` guard drops
when `park_driver` returns); a condvar-parked thread wakes independently. -/
inductive SysStep {n : Nat} : Sys n → Sys n → Prop where
  | parkDriver (s : Sys n) (i : Fin n) :
      s.phase i = Phase.running →
      tryLockSlot s.slotHolder i = some (some i) →
      SysStep s ⟨some i, Function.update s.phase i Phase.driverWait⟩
  | parkCondvarFallback (s : Sys n) (i : Fin n) :
      s.phase i = Phase.running →
      tryLockSlot s.slotHolder i = none →
      SysStep s ⟨s.slotHolder, Function.update s.phase i Phase.condvarWait⟩
  | wakeDriver (s : Sys n) (i : Fin n) :
      s.phase i = Phase.driverWait →
      s.slotHolder = some i →
      SysStep s ⟨none, Function.update s.phase i Phase.running⟩
  | wakeCondvar (s : Sys n) (i : Fin n) :
      s.phase i = Phase.condvarWait →
      SysStep s ⟨s.slotHolder, Function.update s.phase i Phase.running⟩

/-- States reachable from the all-running, slot-free start. -/
inductive SysReachable {n : Nat} : Sys n → Prop where
  | base : SysReachable (Sys.start n)
  | step (s s' : Sys n) : SysReachable s → SysStep s s' → SysReachable s'

/-- The inductive invariant: every thread blocked inside the driver is the
slot holder. -/
def SlotInv {n : Nat} (s : Sys n) : Prop :=
  ∀ i : Fin n, s.phase i = Phase.driverWait → s.slotHolder = some i

/-- A successful `try_lock` implies the slot was free. -/
theorem tryLockSlot_success {n : Nat} (holder : Option (Fin n)) (i : Fin n)
    (h : tryLockSlot holder i = some (some i)) : holder = none := by
  cases holder with
  | none => rfl
  | some k => simp [tryLockSlot] at h

/-- The start state satisfies the invariant. -/
theorem slotInv_start (n : Nat) : SlotInv (Sys.start n) := by
  intro i h
  simp [Sys.start] at h

/-- Every step preserves the invariant. -/
theorem slotInv_step {n : Nat} (s s' : Sys n) (hinv : SlotInv s)
    (hstep : SysStep s s') : SlotInv s' := by
  cases hstep with
  | parkDriver i hrun hlock =>
    intro j hj
    by_cases hij : j = i
    · subst hij; rfl
    · simp only [Function.update, dif_neg hij] at hj
      have hsome := hinv j hj
      rw [tryLockSlot_success s.slotHolder i hlock] at hsome
      cases hsome
  | parkCondvarFallback i hrun hlock =>
    intro j hj
    by_cases hij : j = i
    · subst hij
      simp [Function.update] at hj
    · simp only [Function.update, dif_neg hij] at hj
      exact hinv j hj
  | wakeDriver i hwait hhold =>
    intro j hj
    by_cases hij : j = i
    · subst hij
      simp [Function.update] at hj
    · simp only [Function.update, dif_neg hij] at hj
      have h1 := hinv j hj
      rw [hhold] at h1
      injection h1 with h1
      exact absurd h1.symm hij
  | wakeCondvar i hwait =>
    intro j hj
    by_cases hij : j = i
    · subst hij
      simp [Function.update] at hj
    · simp only [Function.update, dif_neg hij] at hj
      exact hinv j hj

/-- The invariant holds in every reachable state. -/
theorem slotInv_reachable {n : Nat} (s : Sys n) (hr : SysReachable s) :
    SlotInv s := by
  induction hr with
  | base => exact slotInv_start n
  | step s s' _ hstep ih => exact slotInv_step s s' ih hstep

/-- C8: in every reachable state of a pool sharing one `Shared` record, at
most one thread is inside the driver's blocking wait (any two threads in
`driverWait` coincide), and while the slot is held any further `try_lock`
fails without blocking — the failing thread takes the condvar fallback
step, never waiting on the slot. -/
theorem driver_slot_mutual_exclusion {n : Nat} (s : Sys n) (hr : SysReachable s) :
    (∀ i j : Fin n, s.phase i = Phase.driverWait → s.phase j = Phase.driverWait → i = j) ∧
    ∀ i : Fin n, s.slotHolder ≠ none → tryLockSlot s.slotHolder i = none := by
  have hinv := slotInv_reachable s hr
  constructor
  · intro i j hi hj
    have h1 := hinv i hi
    have h2 := hinv j hj
    rw [h1] at h2
    injection h2
  · intro i hne
    cases hh : s.slotHolder with
    | none => exact absurd hh hne
    | some k => simp [tryLockSlot]

/-- A two-thread pool state in which thread 0 has claimed the slot and is
blocked in the driver. -/
def sysAfterClaim : Sys 2 :=
  ⟨some 0, Function.update (Sys.start 2).phase 0 Phase.driverWait⟩

/-- Witness for C8: the state after thread 0 of a two-thread pool claims the
slot is reachable, thread 0 is in the driver wait, and the theorem applies. -/
theorem driver_slot_mutual_exclusion_witness : (0 : Fin 2) = 0 := by
  have hstep : SysStep (Sys.start 2) sysAfterClaim :=
    SysStep.parkDriver (Sys.start 2) 0 rfl rfl
  have hr : SysReachable sysAfterClaim :=
    SysReachable.step (Sys.start 2) sysAfterClaim SysReachable.base hstep
  have hp : sysAfterClaim.phase 0 = Phase.driverWait := by
    simp [sysAfterClaim, Function.update]
  exact (driver_slot_mutual_exclusion sysAfterClaim hr).1 0 0 hp hp

end ParkModel
